import Mathlib

/-!
Verification of the SMPP message-processing core of vumi
(vumi/transports/smpp/processors/default.py): delivery-report
interpretation, inbound PDU decoding with USSD session derivation and
multipart reassembly, and outbound long-message policy.

Python byte strings are modelled as lists of naturals (each byte < 256),
dictionaries as association lists, the external key-value store as an
association list from keys to stored values, and fallible operations
(hex parsing, character-set decoding) as Option-valued functions.
-/

namespace Vumi

/-- Byte strings: each element is one octet. -/
abbrev Bytes := List Nat

/-- Dictionary lookup (Python dict.get with default None). -/
def alookup {α β : Type} [DecidableEq α] : List (α × β) → α → Option β
  | [], _ => none
  | (k, v) :: rest, a => if k = a then some v else alookup rest a

/-- Dictionary lookup with a default (Python dict.get with a default). -/
def alookupD {α β : Type} [DecidableEq α] (l : List (α × β)) (a : α) (d : β) : β :=
  (alookup l a).getD d

/-- Dictionary update: overwrite the entry at a key, or append it. -/
def aset {α β : Type} [DecidableEq α] : List (α × β) → α → β → List (α × β)
  | [], k, v => [(k, v)]
  | (k0, v0) :: rest, k, v =>
    if k0 = k then (k, v) :: rest else (k0, v0) :: aset rest k v

/-- Dictionary deletion: remove every entry at a key. -/
def adelete {α β : Type} [DecidableEq α] : List (α × β) → α → List (α × β)
  | [], _ => []
  | (k0, v0) :: rest, k =>
    if k0 = k then adelete rest k else (k0, v0) :: adelete rest k

/-! ### Hexadecimal encoding and parsing

Embeds the Python operations used by the processors: `int(s, 16)`,
the `"%04x"` format, and `str.encode("hex")` / `str.decode("hex")`.
-/

/-- Lowercase hex digit for a value below 16 (as produced by `%x` formatting). -/
def hexDigitChar (n : Nat) : Char :=
  if n < 10 then Char.ofNat (48 + n) else Char.ofNat (87 + n)

/-- Numeric value of a hex digit character; none for a non-hex character. -/
def hexVal (c : Char) : Option Nat :=
  if 48 ≤ c.toNat ∧ c.toNat ≤ 57 then some (c.toNat - 48)
  else if 97 ≤ c.toNat ∧ c.toNat ≤ 102 then some (c.toNat - 87)
  else if 65 ≤ c.toNat ∧ c.toNat ≤ 70 then some (c.toNat - 55)
  else none

/-- Digits of a natural in base 16, most significant first, accumulator
style; the fuel bounds the digit count and never runs out when it starts
at the number itself. -/
def natToHexAux : Nat → Nat → List Char → List Char
  | 0, _, acc => acc
  | fuel + 1, n, acc =>
    if n = 0 then acc
    else natToHexAux fuel (n / 16) (hexDigitChar (n % 16) :: acc)

/-- Lowercase hex rendering of a natural (Python `"%x" % n`); a positive
number has at most `n` hex digits, so fuel `n` is always enough. -/
def natToHex (n : Nat) : List Char :=
  if n = 0 then ['0'] else natToHexAux n n []

/-- Python `"%04x" % n`: lowercase hex, zero-padded to a minimum width of 4. -/
def hexFmt4 (n : Nat) : String :=
  let ds := natToHex n
  String.mk (List.replicate (4 - ds.length) '0' ++ ds)

/-- Accumulating hex-string parser over a digit list. -/
def hexParseAux : List Char → Nat → Option Nat
  | [], acc => some acc
  | c :: cs, acc =>
    match hexVal c with
    | some v => hexParseAux cs (16 * acc + v)
    | none => none

/-- Python `int(s, 16)` on a plain string of hex digits; none when the
string is empty or holds a non-hex character (the Python call raises). -/
def hexParse (s : String) : Option Nat :=
  match s.data with
  | [] => none
  | c :: cs => hexParseAux (c :: cs) 0

/-- Two lowercase hex characters for one byte (`"%02x"`-style). -/
def byteToHex (b : Nat) : List Char :=
  [hexDigitChar (b / 16), hexDigitChar (b % 16)]

/-- Python `str.encode("hex")`: every byte becomes two lowercase hex digits. -/
def bytesToHex : Bytes → List Char
  | [] => []
  | b :: bs => byteToHex b ++ bytesToHex bs

/-- Python `str.decode("hex")`: consumes pairs of hex digits; none on an
odd-length string or a non-hex character (the Python call raises). -/
def hexToBytes : List Char → Option Bytes
  | [] => some []
  | [_] => none
  | c1 :: c2 :: cs =>
    match hexVal c1, hexVal c2, hexToBytes cs with
    | some v1, some v2, some bs => some ((16 * v1 + v2) :: bs)
    | _, _, _ => none

/-- String form of `bytesToHex`. -/
def hexEncodeStr (bs : Bytes) : String := String.mk (bytesToHex bs)

/-- String form of `hexToBytes`. -/
def hexDecodeStr (s : String) : Option Bytes := hexToBytes s.data

/-! ### Character-set decoding (`DeliverShortMessageProcessor.dcs_decode`) -/

/-- The baseline `data_coding_map` built in
`DeliverShortMessageProcessor.__init__`. -/
def default_data_coding_map : List (Int × String) :=
  [(1, "ascii"), (3, "latin1"), (5, "iso2022_jp"), (6, "iso8859_5"),
   (7, "iso8859_8"), (8, "utf-16be"), (9, "shift_jis"), (10, "iso2022_jp")]

/-- `dict.update`: the override entries replace or extend the base map. -/
def mapUpdate {α β : Type} [DecidableEq α]
    (base over : List (α × β)) : List (α × β) :=
  over.foldl (fun acc kv => aset acc kv.1 kv.2) base

/-- The processor data-coding map: baseline updated with the configured
`data_coding_overrides`. -/
def data_coding_map (overrides : List (Int × String)) : List (Int × String) :=
  mapUpdate default_data_coding_map overrides

/-- Result of `dcs_decode`: either the raw bytes handed back unchanged or
decoded text; `none` models a `None` input handed back unchanged. -/
abbrev DecodedSM := Option (Bytes ⊕ String)

/-- `DeliverShortMessageProcessor.dcs_decode`. The character-set codec is an
abstract parameter `codecDecode` (`vumi.codecs`, outside this module): `none`
models a `UnicodeDecodeError`, which the source catches, returning the raw
bytes. An unmapped `data_coding` or an absent input is returned unchanged. -/
def dcs_decode (dcMap : List (Int × String))
    (codecDecode : Bytes → String → Option String)
    (obj : Option Bytes) (data_coding : Int) : DecodedSM :=
  match alookup dcMap data_coding with
  | none => obj.map Sum.inl
  | some codec_name =>
    match obj with
    | none => none
    | some b =>
      match codecDecode b codec_name with
      | some text => some (Sum.inr text)
      | none => some (Sum.inl b)

/-! ### Inbound message dispatch record -/

/-- Arguments of `transport.handle_raw_inbound_message` as dispatched by
`handle_short_message_content`; the three optional fields are supplied only
by the USSD path. -/
structure InboundMessage where
  source_addr : String
  destination_addr : String
  short_message : DecodedSM
  message_type : Option String
  session_event : Option String
  session_info : Option String
deriving DecidableEq

/-- The mandatory parameters of a deliver PDU used by the handlers. -/
structure SmParams where
  source_addr : String
  destination_addr : String
  short_message : Bytes
  data_coding : Int
deriving DecidableEq

/-- The two optional parameters read by the USSD handler; `handle_ussd_pdu`
only reaches the handler when `detect_ussd` saw `ussd_service_op`. -/
structure UssdPduOpts where
  ussd_service_op : String
  its_session_info : String
deriving DecidableEq

/-- `DeliverShortMessageProcessor.handle_deliver_sm_ussd`: derives the
session event from the `ussd_service_op` octet, parses `its_session_info`
as hex (none models the `int` call raising), masks the low end-session bit
out of the session info, forces `close` when that bit is set, decodes the
short message and dispatches one USSD inbound message. -/
def handle_deliver_sm_ussd (dcMap : List (Int × String))
    (codecDecode : Bytes → String → Option String)
    (pdu_params : SmParams) (pdu_opts : UssdPduOpts) : Option InboundMessage :=
  let service_op := pdu_opts.ussd_service_op
  let session_event :=
    if service_op = "01" then "new"
    else if service_op = "11" then "close"
    else if service_op = "02" ∨ service_op = "12" then "continue"
    else "close"
  match hexParse pdu_opts.its_session_info with
  | none => none
  | some its_session_number =>
    let end_session := its_session_number % 2 ≠ 0
    let session_info := hexFmt4 (its_session_number &&& 0xfffe)
    let session_event := if end_session then "close" else session_event
    let decoded_msg :=
      dcs_decode dcMap codecDecode (some pdu_params.short_message)
        pdu_params.data_coding
    some
      { source_addr := pdu_params.source_addr
        destination_addr := pdu_params.destination_addr
        short_message := decoded_msg
        message_type := some "ussd"
        session_event := some session_event
        session_info := some session_info }

/-! ### Delivery reports (`DeliveryReportProcessor`) -/

/-- `DeliveryReportProcessorConfig.DELIVERY_REPORT_STATUS_MAPPING`, the
default of the `delivery_report_status_mapping` option. -/
def DELIVERY_REPORT_STATUS_MAPPING : List (String × String) :=
  [("delivered", "delivered"),
   ("failed", "failed"),
   ("pending", "pending"),
   ("ENROUTE", "pending"),
   ("DELIVERED", "delivered"),
   ("EXPIRED", "failed"),
   ("DELETED", "failed"),
   ("UNDELIVERABLE", "failed"),
   ("ACCEPTED", "delivered"),
   ("UNKNOWN", "pending"),
   ("REJECTED", "failed"),
   ("DELIVRD", "delivered"),
   ("REJECTD", "failed"),
   ("0", "delivered")]

/-- `DeliveryReportProcessor.STATUS_MAP`: SMPP `message_state` integers to
state names. -/
def STATUS_MAP : List (Int × String) :=
  [(1, "ENROUTE"), (2, "DELIVERED"), (3, "EXPIRED"), (4, "DELETED"),
   (5, "UNDELIVERABLE"), (6, "ACCEPTED"), (7, "UNKNOWN"), (8, "REJECTED")]

/-- `DeliveryReportProcessor.delivery_status`: the configured mapping with
default `pending`. -/
def delivery_status (mapping : List (String × String)) (state : String) : String :=
  alookupD mapping state "pending"

/-- The two optional parameters read by `handle_delivery_report_pdu`. -/
structure ReportPduOpts where
  receipted_message_id : Option String
  message_state : Option Int
deriving DecidableEq

/-- `DeliveryReportProcessor.handle_delivery_report_pdu`: first component is
the handled verdict, second the `(receipted_message_id, delivery_status)`
pair passed to `transport.handle_delivery_report`, when any. -/
def handle_delivery_report_pdu (mapping : List (String × String))
    (opts : ReportPduOpts) : Bool × Option (String × String) :=
  match opts.receipted_message_id, opts.message_state with
  | some rid, some ms =>
    let status := alookupD STATUS_MAP ms "UNKNOWN"
    (true, some (rid, delivery_status mapping status))
  | _, _ => (false, none)

/-! ### The default delivery-report regular expression

`DeliveryReportProcessorConfig.DELIVERY_REPORT_REGEX`, embedded as a small
matcher for its fixed sequence of literals and character classes. Only the
existence of a match is modelled; group extraction stays abstract. -/

/-- One pattern element: a literal, or between `lo` and `hi` (none meaning
unbounded) characters of a class. -/
inductive RAtom where
  | lit : List Char → RAtom
  | cls : (Char → Bool) → Nat → Option Nat → RAtom

/-- Decrement an optional repetition bound. -/
def decrHi : Option Nat → Option Nat
  | none => none
  | some n => some (n - 1)

/-- Literal match: the pattern characters start the string. -/
def litStarts : List Char → List Char → Bool
  | [], _ => true
  | _ :: _, [] => false
  | a :: as, b :: bs => a == b && litStarts as bs

/-- Can a class consume between `lo` and `hi` characters of `s` so that the
continuation `k` accepts the rest? -/
def matchCls (p : Char → Bool) (k : List Char → Bool) :
    Nat → Option Nat → List Char → Bool
  | lo, _, [] => lo == 0 && k []
  | lo, hi, c :: s1 =>
    ((lo == 0) && k (c :: s1)) ||
    (p c && !(hi == some 0) && matchCls p k (lo - 1) (decrHi hi) s1)

/-- Does the atom sequence match some prefix of the string? -/
def matchAtoms : List RAtom → List Char → Bool
  | [], _ => true
  | RAtom.lit l :: rest, s => litStarts l s && matchAtoms rest (s.drop l.length)
  | RAtom.cls p lo hi :: rest, s => matchCls p (matchAtoms rest) lo hi s

/-- Python `re.search`: the pattern matches starting at some position. -/
def searchAtoms (ats : List RAtom) : List Char → Bool
  | [] => matchAtoms ats []
  | c :: s1 => matchAtoms ats (c :: s1) || searchAtoms ats s1

/-- Python `\S` under the ASCII semantics of the pattern. -/
def isNonSpaceChar (c : Char) : Bool :=
  !(c == ' ' || c == '\t' || c == '\n' || c == '\r' ||
    c == Char.ofNat 11 || c == Char.ofNat 12)

/-- Python `.` outside DOTALL: any character but a newline. -/
def notNewline (c : Char) : Bool := !(c == '\n')

/-- Python `\d`. -/
def isDigitChar (c : Char) : Bool := '0' ≤ c && c ≤ '9'

/-- The `[A-Z]` class of the `stat` group. -/
def isUpperAZ (c : Char) : Bool := 'A' ≤ c && c ≤ 'Z'

/-- A single space, for the ` +` separators of the pattern. -/
def isSpaceChar (c : Char) : Bool := c == ' '

/-- `DELIVERY_REPORT_REGEX` as an atom sequence, literal by literal. -/
def deliveryReportAtoms : List RAtom :=
  [RAtom.lit "id:".data,
   RAtom.cls isNonSpaceChar 0 (some 65),
   RAtom.cls isSpaceChar 1 none,
   RAtom.lit "sub:".data,
   RAtom.cls notNewline 3 (some 3),
   RAtom.cls isSpaceChar 1 none,
   RAtom.lit "dlvrd:".data,
   RAtom.cls notNewline 3 (some 3),
   RAtom.cls isSpaceChar 1 none,
   RAtom.lit "submit date:".data,
   RAtom.cls isDigitChar 0 none,
   RAtom.cls isSpaceChar 1 none,
   RAtom.lit "done date:".data,
   RAtom.cls isDigitChar 0 none,
   RAtom.cls isSpaceChar 1 none,
   RAtom.lit "stat:".data,
   RAtom.cls isUpperAZ 7 (some 7),
   RAtom.cls isSpaceChar 1 none,
   RAtom.lit "err:".data,
   RAtom.cls notNewline 3 (some 3),
   RAtom.cls isSpaceChar 1 none,
   RAtom.cls (fun c => c == 'T' || c == 't') 1 (some 1),
   RAtom.lit "ext:".data,
   RAtom.cls notNewline 0 (some 20),
   RAtom.cls notNewline 0 none]

/-- Search of the default delivery-report pattern in a content string. -/
def delivery_report_search (s : String) : Bool :=
  searchAtoms deliveryReportAtoms s.data

/-- `DeliveryReportProcessor.handle_delivery_report_content`: an absent
content is replaced by the empty string (`content or ""`) before the regex
search; on a match the `id` and `stat` groups (extraction abstracted as
`extractFields`) feed one delivery-report callback; otherwise not handled. -/
def handle_delivery_report_content (mapping : List (String × String))
    (extractFields : String → String × String)
    (content : Option String) : Bool × Option (String × String) :=
  let s := content.getD ""
  if delivery_report_search s then
    let fields := extractFields s
    (true, some (fields.1, delivery_status mapping fields.2))
  else (false, none)

/-! ### Multipart reassembly (`handle_deliver_sm_multipart`) -/

/-- One stored part record; the payload type is a parameter because parts
hold raw bytes in memory and hex text in the external store. -/
structure PartRecord (α : Type) where
  part_message : α
  from_msisdn : String
  to_msisdn : String
deriving DecidableEq

/-- The in-memory multipart buffer: part index to part record. -/
abbrev MultiBuffer := List (Nat × PartRecord Bytes)

/-- The buffer as stored: payloads hex-encoded for the text-only store. -/
abbrev StoredBuffer := List (Nat × PartRecord String)

/-- The external key-value store holding JSON-serialised buffers; the JSON
round trip is the identity here, so values are kept structured. -/
abbrev Store := List (String × StoredBuffer)

/-- `DeliverShortMessageProcessor._hex_for_redis`: hex-encode every part
payload before saving. -/
def hex_for_redis (buf : MultiBuffer) : StoredBuffer :=
  buf.map (fun e =>
    (e.1, { part_message := hexEncodeStr e.2.part_message
            from_msisdn := e.2.from_msisdn
            to_msisdn := e.2.to_msisdn }))

/-- `DeliverShortMessageProcessor._unhex_from_redis`: hex-decode every part
payload after loading; none models a decode exception. -/
def unhex_from_redis : StoredBuffer → Option MultiBuffer
  | [] => some []
  | (i, part) :: rest =>
    match hexDecodeStr part.part_message, unhex_from_redis rest with
    | some bs, some r =>
      some ((i, { part_message := bs
                  from_msisdn := part.from_msisdn
                  to_msisdn := part.to_msisdn }) :: r)
    | _, _ => none

/-- The multipart header fields and mandatory parameters of one deliver PDU
carrying a fragment, as extracted by `detect_multipart`. -/
structure MultiPdu where
  ref : Nat
  total : Nat
  part_number : Nat
  source_addr : String
  destination_addr : String
  short_message : Bytes
  data_coding : Int
deriving DecidableEq

/-- Modelled from the spec: `multipart_key` of the external `smpp`
library is not in this repository; the spec says the reassembly key is
derived deterministically from (reference, total parts, source address). -/
def multipart_key (p : MultiPdu) : String :=
  toString p.ref ++ "_" ++ toString p.total ++ "_" ++ p.source_addr

/-- Modelled from the spec: `MultipartMessage.add_pdu` of the external
`smpp` library; the current part is inserted under its part index,
overwriting an existing entry at that index. -/
def add_pdu (buf : MultiBuffer) (p : MultiPdu) : MultiBuffer :=
  aset buf p.part_number
    { part_message := p.short_message
      from_msisdn := p.source_addr
      to_msisdn := p.destination_addr }

/-- Completion test of the spec: all indices 1..total are present. -/
def isComplete (buf : MultiBuffer) (total : Nat) : Bool :=
  (List.range total).all (fun i => (alookup buf (i + 1)).isSome)

/-- Concatenation of the part payloads in ascending index order 1..total. -/
def concatParts (buf : MultiBuffer) (total : Nat) : Bytes :=
  ((List.range total).map (fun i =>
    match alookup buf (i + 1) with
    | some part => part.part_message
    | none => [])).flatten

/-- Modelled from the spec: `MultipartMessage.get_completed` of the external
`smpp` library; when all indices 1..total are present it yields the
reassembled message with the msisdns of the buffer, else nothing. -/
def get_completed (buf : MultiBuffer) (total : Nat) :
    Option (Bytes × String × String) :=
  if isComplete buf total then
    let first := alookupD buf 1
      { part_message := [], from_msisdn := "", to_msisdn := "" }
    some (concatParts buf total, first.from_msisdn, first.to_msisdn)
  else none

/-- `DeliverShortMessageProcessor.load_multipart_message`: absent or empty
store value is an empty buffer; payloads are un-hexed on load. -/
def load_multipart_message (store : Store) (redis_key : String) :
    Option MultiBuffer :=
  unhex_from_redis ((alookup store redis_key).getD [])

/-- `DeliverShortMessageProcessor.handle_deliver_sm_multipart`: load the
buffer under `"multi_" + key`, insert the current part, then either delete
the key and dispatch the reassembled message decoded with the data_coding
of the current PDU, or write the re-hexed buffer back and dispatch nothing.
The result pairs the new store with the dispatched message, if any; none
models an un-hex exception propagating. -/
def handle_deliver_sm_multipart (dcMap : List (Int × String))
    (codecDecode : Bytes → String → Option String)
    (store : Store) (p : MultiPdu) : Option (Store × Option InboundMessage) :=
  let redis_key := "multi_" ++ multipart_key p
  match load_multipart_message store redis_key with
  | none => none
  | some multi0 =>
    let multi := add_pdu multi0 p
    match get_completed multi p.total with
    | some completed =>
      let decoded_msg := dcs_decode dcMap codecDecode (some completed.1) p.data_coding
      some (adelete store redis_key,
        some { source_addr := completed.2.1
               destination_addr := completed.2.2
               short_message := decoded_msg
               message_type := none
               session_event := none
               session_info := none })
    | none =>
      some (aset store redis_key (hex_for_redis multi), none)

/-! ### Outbound submission (`SubmitShortMessageProcessor`) -/

/-- The static configuration of `SubmitShortMessageProcessorConfig`. -/
structure SubmitConfig where
  submit_sm_encoding : String
  submit_sm_data_coding : Int
  send_long_messages : Bool
  send_multipart_sar : Bool
  send_multipart_udh : Bool
deriving DecidableEq

/-- How many of the three long-message flags are set. -/
def numLongFlags (cfg : SubmitConfig) : Nat :=
  (if cfg.send_long_messages then 1 else 0) +
  (if cfg.send_multipart_sar then 1 else 0) +
  (if cfg.send_multipart_udh then 1 else 0)

/-- The names of the set long-message flags, in declaration order, as
gathered by `post_validate`. -/
def set_params (cfg : SubmitConfig) : List String :=
  ((["send_long_messages", "send_multipart_sar", "send_multipart_udh"].zip
    [cfg.send_long_messages, cfg.send_multipart_sar, cfg.send_multipart_udh]).filter
      (fun pb => pb.2)).map (fun pb => pb.1)

/-- `SubmitShortMessageProcessorConfig.post_validate`: a configuration error
when more than one long-message flag is set, otherwise fine. -/
def post_validate (cfg : SubmitConfig) : Except String Unit :=
  if 1 < (set_params cfg).length then
    Except.error ("The following parameters are mutually exclusive: " ++
      String.intercalate ", " (set_params cfg))
  else Except.ok ()

/-- One call on the protocol object: the four submit primitives with the
arguments `handle_outbound_message` passes them. -/
inductive ProtoCall where
  | submit_sm_long (message_id : String) (to_addr : Bytes) (long_message : Bytes)
      (data_coding : Int) (source_addr : Bytes) (opts : List (String × String))
  | submit_csm_sar (message_id : String) (to_addr : Bytes) (short_message : Bytes)
      (data_coding : Int) (source_addr : Bytes) (opts : List (String × String))
  | submit_csm_udh (message_id : String) (to_addr : Bytes) (short_message : Bytes)
      (data_coding : Int) (source_addr : Bytes) (opts : List (String × String))
  | submit_sm (message_id : String) (to_addr : Bytes) (short_message : Bytes)
      (data_coding : Int) (source_addr : Bytes) (opts : List (String × String))
deriving DecidableEq

/-- The primitive a protocol call selects, by name. -/
def protoKind : ProtoCall → String
  | ProtoCall.submit_sm_long _ _ _ _ _ _ => "submit_sm_long"
  | ProtoCall.submit_csm_sar _ _ _ _ _ _ => "submit_csm_sar"
  | ProtoCall.submit_csm_udh _ _ _ _ _ _ => "submit_csm_udh"
  | ProtoCall.submit_sm _ _ _ _ _ _ => "submit_sm"

/-- The encoded message payload of a protocol call (the `long_message` or
`short_message` argument). -/
def protoPayload : ProtoCall → Bytes
  | ProtoCall.submit_sm_long _ _ m _ _ _ => m
  | ProtoCall.submit_csm_sar _ _ m _ _ _ => m
  | ProtoCall.submit_csm_udh _ _ m _ _ _ => m
  | ProtoCall.submit_sm _ _ m _ _ _ => m

/-- The `data_coding` argument of a protocol call. -/
def protoDataCoding : ProtoCall → Int
  | ProtoCall.submit_sm_long _ _ _ dc _ _ => dc
  | ProtoCall.submit_csm_sar _ _ _ dc _ _ => dc
  | ProtoCall.submit_csm_udh _ _ _ dc _ _ => dc
  | ProtoCall.submit_sm _ _ _ dc _ _ => dc

/-- The `optional_parameters` argument of a protocol call. -/
def protoOpts : ProtoCall → List (String × String)
  | ProtoCall.submit_sm_long _ _ _ _ _ o => o
  | ProtoCall.submit_csm_sar _ _ _ _ _ o => o
  | ProtoCall.submit_csm_udh _ _ _ _ _ o => o
  | ProtoCall.submit_sm _ _ _ _ _ o => o

/-- The outbound message fields read by `handle_outbound_message`; a `none`
session event models `None`, and `"close"` is
`TransportUserMessage.SESSION_CLOSE`. -/
structure OutboundMessage where
  to_addr : String
  from_addr : String
  content : String
  message_id : String
  session_event : Option String
  transport_type : String
  transport_metadata : List (String × String)
deriving DecidableEq

/-- `SubmitShortMessageProcessor.handle_outbound_message`. Text encoding
(`str.encode` with the configured codec) and the 7-bit address encoding are
abstract parameters. For USSD traffic the optional parameters carry
`ussd_service_op = "02"` and `its_session_info` computed by integer
addition of the negated continue flag onto the metadata session info;
none models the hex parse raising. Exactly one protocol call results. -/
def handle_outbound_message (cfg : SubmitConfig)
    (encode : String → String → Bytes) (asciiEncode : String → Bytes)
    (m : OutboundMessage) : Option ProtoCall :=
  let optional_parameters : Option (List (String × String)) :=
    if m.transport_type = "ussd" then
      let continue_session := m.session_event ≠ some "close"
      let session_info := alookupD m.transport_metadata "session_info" "0000"
      (hexParse session_info).map (fun v =>
        [("ussd_service_op", "02"),
         ("its_session_info", hexFmt4 (v + (if continue_session then 0 else 1)))])
    else some []
  optional_parameters.map (fun ops =>
    if cfg.send_long_messages then
      ProtoCall.submit_sm_long m.message_id (asciiEncode m.to_addr)
        (encode m.content cfg.submit_sm_encoding) cfg.submit_sm_data_coding
        (asciiEncode m.from_addr) ops
    else if cfg.send_multipart_sar then
      ProtoCall.submit_csm_sar m.message_id (asciiEncode m.to_addr)
        (encode m.content cfg.submit_sm_encoding) cfg.submit_sm_data_coding
        (asciiEncode m.from_addr) ops
    else if cfg.send_multipart_udh then
      ProtoCall.submit_csm_udh m.message_id (asciiEncode m.to_addr)
        (encode m.content cfg.submit_sm_encoding) cfg.submit_sm_data_coding
        (asciiEncode m.from_addr) ops
    else
      ProtoCall.submit_sm m.message_id (asciiEncode m.to_addr)
        (encode m.content cfg.submit_sm_encoding) cfg.submit_sm_data_coding
        (asciiEncode m.from_addr) ops)

/-! ### Helper lemmas -/

theorem alookup_aset_self {α β : Type} [DecidableEq α]
    (l : List (α × β)) (k : α) (v : β) : alookup (aset l k v) k = some v := by
  induction l with
  | nil => simp [aset, alookup]
  | cons e rest ih =>
    obtain ⟨a, b⟩ := e
    by_cases h : a = k <;> simp [aset, alookup, h, ih]

theorem alookup_adelete_self {α β : Type} [DecidableEq α]
    (l : List (α × β)) (k : α) : alookup (adelete l k) k = none := by
  induction l with
  | nil => simp [adelete, alookup]
  | cons e rest ih =>
    obtain ⟨a, b⟩ := e
    by_cases h : a = k <;> simp [adelete, alookup, h, ih]

theorem alookupD_eq_default_or_mem {α β : Type} [DecidableEq α]
    (l : List (α × β)) (k : α) (d : β) :
    alookupD l k d = d ∨ alookupD l k d ∈ l.map Prod.snd := by
  induction l with
  | nil => left; rfl
  | cons e rest ih =>
    obtain ⟨a, b⟩ := e
    by_cases h : a = k
    · right; simp [alookupD, alookup, h]
    · rcases ih with ih | ih
      · left; simpa [alookupD, alookup, h] using ih
      · right; simp only [List.map_cons, List.mem_cons]
        right; simpa [alookupD, alookup, h] using ih

theorem hexVal_hexDigitChar (d : Nat) (h : d < 16) :
    hexVal (hexDigitChar d) = some d := by
  interval_cases d <;> rfl

theorem hexToBytes_bytesToHex (bs : Bytes) (h : ∀ b ∈ bs, b < 256) :
    hexToBytes (bytesToHex bs) = some bs := by
  induction bs with
  | nil => rfl
  | cons b rest ih =>
    have hb : b < 256 := h b (by simp)
    have h1 : b / 16 < 16 := by omega
    have h2 : b % 16 < 16 := Nat.mod_lt _ (by norm_num)
    have ih2 := ih (fun x hx => h x (by simp [hx]))
    simp only [bytesToHex, byteToHex, List.cons_append, List.nil_append, hexToBytes,
      hexVal_hexDigitChar _ h1, hexVal_hexDigitChar _ h2, ih2]
    have hdm : 16 * (b / 16) + b % 16 = b := by omega
    simp [hexToBytes, hexVal_hexDigitChar _ h1, hexVal_hexDigitChar _ h2, ih2, hdm]

theorem hexDecodeStr_hexEncodeStr (bs : Bytes) (h : ∀ b ∈ bs, b < 256) :
    hexDecodeStr (hexEncodeStr bs) = some bs := by
  simpa [hexDecodeStr, hexEncodeStr] using hexToBytes_bytesToHex bs h

theorem natToHexAux_length (k : Nat) :
    ∀ fuel n acc, n < 16 ^ k →
      (natToHexAux fuel n acc).length ≤ k + acc.length := by
  induction k with
  | zero =>
    intro fuel n acc h
    have : n = 0 := by simpa using h
    subst this
    cases fuel <;> simp [natToHexAux]
  | succ k ih =>
    intro fuel n acc h
    cases fuel with
    | zero => simp [natToHexAux]
    | succ fuel =>
      rw [natToHexAux]
      split
      · simp
      · have hdiv : n / 16 < 16 ^ k := by
          rw [Nat.div_lt_iff_lt_mul (by norm_num)]
          calc n < 16 ^ (k + 1) := h
          _ = 16 ^ k * 16 := by ring
        have := ih fuel (n / 16) (hexDigitChar (n % 16) :: acc) hdiv
        simp only [List.length_cons] at this
        omega

theorem hexFmt4_length (n : Nat) (h : n < 65536) : (hexFmt4 n).length = 4 := by
  have hlen : (natToHex n).length ≤ 4 := by
    unfold natToHex
    split
    · simp
    · simpa using natToHexAux_length 4 n n [] (by norm_num at h ⊢; omega)
  simp only [hexFmt4, String.length, List.length_append, List.length_replicate]
  omega

/-! ### Claim theorems -/

/-- C1: for every USSD deliver PDU whose its_session_info parses as the
integer n, the dispatched session_event follows the ussd_service_op octet
(01 new, 11 close, 02 or 12 continue, otherwise close) unless the low bit
of n is set, in which case it is close; the dispatched session_info is the
4-hex-character rendering of n with the low bit masked off. -/
theorem ussd_session_event_and_info
    (dcMap : List (Int × String)) (codecDecode : Bytes → String → Option String)
    (pdu_params : SmParams) (pdu_opts : UssdPduOpts) (n : Nat)
    (hparse : hexParse pdu_opts.its_session_info = some n) :
    ∃ m, handle_deliver_sm_ussd dcMap codecDecode pdu_params pdu_opts = some m ∧
      m.session_event = some (if n % 2 = 1 then "close"
        else if pdu_opts.ussd_service_op = "01" then "new"
        else if pdu_opts.ussd_service_op = "11" then "close"
        else if pdu_opts.ussd_service_op = "02" ∨ pdu_opts.ussd_service_op = "12" then "continue"
        else "close") ∧
      m.session_info = some (hexFmt4 (n &&& 0xfffe)) ∧
      (hexFmt4 (n &&& 0xfffe)).length = 4 := by
  unfold handle_deliver_sm_ussd
  rw [hparse]
  refine ⟨_, rfl, ?_, rfl, ?_⟩
  · rcases Nat.mod_two_eq_zero_or_one n with h | h <;> simp [h]
  · exact hexFmt4_length _ (by
      have : n &&& 0xfffe ≤ 0xfffe := Nat.and_le_right
      omega)

/-- C1 witness: a PSSR request octet 01 with session info 0010 dispatches a
new-session event and session info 0010. -/
theorem ussd_session_event_and_info_witness :
    ∃ m, handle_deliver_sm_ussd [] (fun _ _ => none)
        ⟨"src", "dst", [42], 1⟩ ⟨"01", "0010"⟩ = some m ∧
      m.session_event = some "new" ∧ m.session_info = some "0010" := by
  obtain ⟨m, hm, hev, hinfo, hlen⟩ :=
    ussd_session_event_and_info [] (fun _ _ => none)
      ⟨"src", "dst", [42], 1⟩ ⟨"01", "0010"⟩ 16 (by decide)
  refine ⟨m, hm, ?_, ?_⟩
  · rw [hev]; decide
  · rw [hinfo]; decide

/-- C4: dcs_decode returns the input unchanged when the data coding has no
entry in the baseline-plus-overrides map, when the input is absent, or when
the character-set decode fails; only when all three succeed does it return
the decoded text. -/
theorem dcs_decode_error_handling
    (overrides : List (Int × String)) (codecDecode : Bytes → String → Option String)
    (obj : Option Bytes) (data_coding : Int) :
    (alookup (data_coding_map overrides) data_coding = none →
      dcs_decode (data_coding_map overrides) codecDecode obj data_coding =
        obj.map Sum.inl) ∧
    (obj = none →
      dcs_decode (data_coding_map overrides) codecDecode obj data_coding = none) ∧
    (∀ cn b, alookup (data_coding_map overrides) data_coding = some cn →
      obj = some b → codecDecode b cn = none →
      dcs_decode (data_coding_map overrides) codecDecode obj data_coding =
        some (Sum.inl b)) ∧
    (∀ cn b t, alookup (data_coding_map overrides) data_coding = some cn →
      obj = some b → codecDecode b cn = some t →
      dcs_decode (data_coding_map overrides) codecDecode obj data_coding =
        some (Sum.inr t)) := by
  refine ⟨fun h => ?_, fun h => ?_, fun cn b h1 h2 h3 => ?_, fun cn b t h1 h2 h3 => ?_⟩
  · simp [dcs_decode, h]
  · subst h
    unfold dcs_decode
    cases alookup (data_coding_map overrides) data_coding <;> rfl
  · simp [dcs_decode, h1, h2, h3]
  · simp [dcs_decode, h1, h2, h3]

/-- C4 witness: with no overrides, an unmapped coding 0 hands bytes back,
an absent input comes back absent, and a failing ascii decode under coding
1 hands the raw bytes back. -/
theorem dcs_decode_error_handling_witness :
    dcs_decode (data_coding_map []) (fun _ _ => none) (some [200]) 0 =
      some (Sum.inl [200]) ∧
    dcs_decode (data_coding_map []) (fun _ _ => none) none 1 = none ∧
    dcs_decode (data_coding_map []) (fun _ _ => none) (some [200]) 1 =
      some (Sum.inl [200]) := by
  refine ⟨?_, ?_, ?_⟩
  · exact (dcs_decode_error_handling [] (fun _ _ => none) (some [200]) 0).1 (by decide)
  · exact (dcs_decode_error_handling [] (fun _ _ => none) none 1).2.1 rfl
  · exact (dcs_decode_error_handling [] (fun _ _ => none) (some [200]) 1).2.2.1
      "ascii" [200] (by decide) rfl rfl

/-- C8: the default delivery-status mapping fixes each canonical status and
sends every token outside the mapping to pending. -/
theorem delivery_status_idempotent_and_default :
    delivery_status DELIVERY_REPORT_STATUS_MAPPING "delivered" = "delivered" ∧
    delivery_status DELIVERY_REPORT_STATUS_MAPPING "failed" = "failed" ∧
    delivery_status DELIVERY_REPORT_STATUS_MAPPING "pending" = "pending" ∧
    ∀ s : String, alookup DELIVERY_REPORT_STATUS_MAPPING s = none →
      delivery_status DELIVERY_REPORT_STATUS_MAPPING s = "pending" := by
  refine ⟨rfl, rfl, rfl, fun s h => ?_⟩
  simp [delivery_status, alookupD, h]

/-- C8 witness: a malformed token outside the mapping resolves to pending. -/
theorem delivery_status_default_witness :
    delivery_status DELIVERY_REPORT_STATUS_MAPPING "DELIVRX" = "pending" :=
  delivery_status_idempotent_and_default.2.2.2 "DELIVRX" (by decide)

/-- C10: an absent delivery-report content is replaced by the empty string,
the default pattern does not match the empty string, and the call returns
not handled with no callback. -/
theorem delivery_report_content_none (mapping : List (String × String))
    (extractFields : String → String × String) :
    handle_delivery_report_content mapping extractFields none = (false, none) ∧
    (none : Option String).getD "" = "" ∧
    delivery_report_search "" = false := by
  exact ⟨rfl, rfl, rfl⟩

/-- C2: after inserting the current part into the loaded buffer, a complete
buffer (all indices 1..total present) has its store key deleted and exactly
one inbound message dispatched whose content is the concatenated payload
decoded with the data_coding of the current PDU; an incomplete buffer is
written back re-hex-encoded under the same key with nothing dispatched. -/
theorem multipart_complete_dispatch_or_save
    (dcMap : List (Int × String)) (codecDecode : Bytes → String → Option String)
    (store : Store) (p : MultiPdu) (buf : MultiBuffer)
    (hload : load_multipart_message store ("multi_" ++ multipart_key p) = some buf) :
    (isComplete (add_pdu buf p) p.total = true →
      ∃ msg, handle_deliver_sm_multipart dcMap codecDecode store p =
          some (adelete store ("multi_" ++ multipart_key p), some msg) ∧
        msg.short_message = dcs_decode dcMap codecDecode
          (some (concatParts (add_pdu buf p) p.total)) p.data_coding ∧
        alookup (adelete store ("multi_" ++ multipart_key p))
          ("multi_" ++ multipart_key p) = none) ∧
    (isComplete (add_pdu buf p) p.total = false →
      handle_deliver_sm_multipart dcMap codecDecode store p =
        some (aset store ("multi_" ++ multipart_key p)
          (hex_for_redis (add_pdu buf p)), none) ∧
      alookup (aset store ("multi_" ++ multipart_key p)
          (hex_for_redis (add_pdu buf p))) ("multi_" ++ multipart_key p) =
        some (hex_for_redis (add_pdu buf p))) := by
  constructor
  · intro hc
    unfold handle_deliver_sm_multipart
    simp only [hload, get_completed, hc, if_true]
    exact ⟨_, rfl, rfl, alookup_adelete_self store _⟩
  · intro hc
    unfold handle_deliver_sm_multipart
    simp only [hload, get_completed, hc]
    exact ⟨by simp, alookup_aset_self store _ _⟩

/-- C2 witness: the first of two parts arriving into an empty store is
written back hex-encoded and dispatches nothing. -/
theorem multipart_complete_dispatch_or_save_witness :
    handle_deliver_sm_multipart [] (fun _ _ => none) []
        ⟨7, 2, 1, "src", "dst", [72, 105], 3⟩ =
      some (aset [] ("multi_" ++ multipart_key ⟨7, 2, 1, "src", "dst", [72, 105], 3⟩)
        (hex_for_redis (add_pdu [] ⟨7, 2, 1, "src", "dst", [72, 105], 3⟩)), none) :=
  ((multipart_complete_dispatch_or_save [] (fun _ _ => none) []
    ⟨7, 2, 1, "src", "dst", [72, 105], 3⟩ [] rfl).2 (by decide)).1

/-- C3: handle_delivery_report_pdu is not handled with no callback when
either optional parameter is absent; otherwise it resolves the state
through STATUS_MAP (out of range resolving to UNKNOWN), maps it to a
canonical status through the delivery-status mapping, and emits exactly
one callback with the receipted message id, returning handled. -/
theorem delivery_report_pdu_spec (opts : ReportPduOpts) :
    ((opts.receipted_message_id = none ∨ opts.message_state = none) →
      handle_delivery_report_pdu DELIVERY_REPORT_STATUS_MAPPING opts = (false, none)) ∧
    (∀ rid ms, opts.receipted_message_id = some rid → opts.message_state = some ms →
      handle_delivery_report_pdu DELIVERY_REPORT_STATUS_MAPPING opts =
        (true, some (rid, delivery_status DELIVERY_REPORT_STATUS_MAPPING
          (alookupD STATUS_MAP ms "UNKNOWN")))) ∧
    (∀ ms : Int, ms < 1 ∨ 8 < ms → alookupD STATUS_MAP ms "UNKNOWN" = "UNKNOWN") ∧
    (∀ s : String, delivery_status DELIVERY_REPORT_STATUS_MAPPING s ∈
      ["delivered", "failed", "pending"]) := by
  obtain ⟨rid?, ms?⟩ := opts
  refine ⟨?_, ?_, ?_, ?_⟩
  · rintro (h | h) <;> simp only at h <;> subst h
    · rfl
    · cases rid? <;> rfl
  · intro rid ms h1 h2
    simp only at h1 h2
    subst h1; subst h2
    rfl
  · intro ms hms
    simp only [STATUS_MAP, alookupD, alookup]
    split_ifs <;> simp_all <;> omega
  · intro s
    rcases alookupD_eq_default_or_mem DELIVERY_REPORT_STATUS_MAPPING s "pending"
      with h | h
    · simp [delivery_status, h]
    · have hall : ∀ v ∈ DELIVERY_REPORT_STATUS_MAPPING.map Prod.snd,
          v ∈ ["delivered", "failed", "pending"] := by decide
      exact hall _ h

/-- C3 witness: message_state 2 with a receipted id yields one callback
with status delivered; state 99 is out of range and, absent parameters,
nothing is handled. -/
theorem delivery_report_pdu_spec_witness :
    handle_delivery_report_pdu DELIVERY_REPORT_STATUS_MAPPING
      ⟨some "abc123", some 2⟩ = (true, some ("abc123", "delivered")) ∧
    alookupD STATUS_MAP 99 "UNKNOWN" = "UNKNOWN" ∧
    handle_delivery_report_pdu DELIVERY_REPORT_STATUS_MAPPING
      ⟨none, some 2⟩ = (false, none) := by
  refine ⟨?_, ?_, ?_⟩
  · have h := (delivery_report_pdu_spec ⟨some "abc123", some 2⟩).2.1 "abc123" 2 rfl rfl
    rw [h]; rfl
  · exact (delivery_report_pdu_spec ⟨none, none⟩).2.2.1 99 (by omega)
  · exact (delivery_report_pdu_spec ⟨none, some 2⟩).1 (Or.inl rfl)

/-- C5: for an outbound USSD message whose metadata session info parses as
v, the dispatched call carries ussd_service_op 02 and its_session_info
rendered from v plus 0 when the session continues (session_event other
than close) and plus 1 when it closes, by integer addition. -/
theorem ussd_outbound_session_info
    (cfg : SubmitConfig) (encode : String → String → Bytes)
    (asciiEncode : String → Bytes) (m : OutboundMessage) (v : Nat)
    (htype : m.transport_type = "ussd")
    (hparse : hexParse (alookupD m.transport_metadata "session_info" "0000") = some v) :
    ∃ call, handle_outbound_message cfg encode asciiEncode m = some call ∧
      protoOpts call =
        [("ussd_service_op", "02"),
         ("its_session_info",
          hexFmt4 (v + (if m.session_event ≠ some "close" then 0 else 1)))] := by
  unfold handle_outbound_message
  rw [htype]
  simp only [if_pos rfl, hparse, Option.map_some]
  refine ⟨_, rfl, ?_⟩
  split
  · rfl
  · split
    · rfl
    · split <;> rfl

/-- C5 witness: closing a session whose metadata session info is 0010 sends
its_session_info 0011. -/
theorem ussd_outbound_session_info_witness :
    ∃ call, handle_outbound_message ⟨"utf-8", 0, false, false, false⟩
        (fun _ _ => [1]) (fun _ => [2])
        ⟨"t", "f", "hi", "mid", some "close", "ussd", [("session_info", "0010")]⟩ =
        some call ∧
      protoOpts call = [("ussd_service_op", "02"), ("its_session_info", "0011")] := by
  obtain ⟨call, hc, ho⟩ := ussd_outbound_session_info
    ⟨"utf-8", 0, false, false, false⟩ (fun _ _ => [1]) (fun _ => [2])
    ⟨"t", "f", "hi", "mid", some "close", "ussd", [("session_info", "0010")]⟩
    16 rfl (by decide)
  refine ⟨call, hc, ?_⟩
  rw [ho]
  decide

/-- C6: under a loaded (mutually exclusive) configuration every outbound
message dispatches exactly one protocol call, selected by the flag that is
set (submit_sm_long, submit_csm_sar, submit_csm_udh, or plain submit_sm),
always carrying the content encoded with the configured encoding and the
configured data coding. -/
theorem outbound_dispatch_selection
    (cfg : SubmitConfig) (encode : String → String → Bytes)
    (asciiEncode : String → Bytes) (m : OutboundMessage) (call : ProtoCall)
    (hcall : handle_outbound_message cfg encode asciiEncode m = some call)
    (hexcl : numLongFlags cfg ≤ 1) :
    (cfg.send_long_messages = true → protoKind call = "submit_sm_long") ∧
    (cfg.send_multipart_sar = true → protoKind call = "submit_csm_sar") ∧
    (cfg.send_multipart_udh = true → protoKind call = "submit_csm_udh") ∧
    (cfg.send_long_messages = false → cfg.send_multipart_sar = false →
      cfg.send_multipart_udh = false → protoKind call = "submit_sm") ∧
    protoPayload call = encode m.content cfg.submit_sm_encoding ∧
    protoDataCoding call = cfg.submit_sm_data_coding := by
  rcases Option.map_eq_some'.mp hcall with ⟨ops, hops, hdef⟩
  subst hdef
  obtain ⟨enc, dc, b1, b2, b3⟩ := cfg
  clear hcall hops
  cases b1 <;> cases b2 <;> cases b3 <;>
    simp_all [numLongFlags, protoKind, protoPayload, protoDataCoding]

/-- C6 witness: with only send_long_messages set, a plain SMS goes out via
submit_sm_long with the encoded text and configured data coding. -/
theorem outbound_dispatch_selection_witness :
    protoKind (ProtoCall.submit_sm_long "mid" [2] [1] 0 [2] []) = "submit_sm_long" ∧
    protoPayload (ProtoCall.submit_sm_long "mid" [2] [1] 0 [2] []) = [1] :=
  have h := outbound_dispatch_selection ⟨"utf-8", 0, true, false, false⟩
    (fun _ _ => [1]) (fun _ => [2]) ⟨"t", "f", "hi", "mid", none, "sms", []⟩
    (ProtoCall.submit_sm_long "mid" [2] [1] 0 [2] []) rfl (by decide)
  ⟨h.1 rfl, h.2.2.2.2.1⟩

/-- C7: post_validate fails exactly when more than one of the three
long-message flags is set, so a successfully validated configuration has
at most one of them set. -/
theorem post_validate_mutual_exclusion (cfg : SubmitConfig) :
    ((∃ e, post_validate cfg = Except.error e) ↔ 1 < numLongFlags cfg) ∧
    (post_validate cfg = Except.ok () → numLongFlags cfg ≤ 1) := by
  obtain ⟨enc, dc, b1, b2, b3⟩ := cfg
  cases b1 <;> cases b2 <;> cases b3 <;>
    simp [post_validate, set_params, numLongFlags]

/-- C7 witness: two flags set is a configuration error; one flag set
validates and counts at most one. -/
theorem post_validate_mutual_exclusion_witness :
    (∃ e, post_validate ⟨"utf-8", 0, true, true, false⟩ = Except.error e) ∧
    numLongFlags ⟨"utf-8", 0, false, true, false⟩ ≤ 1 :=
  ⟨(post_validate_mutual_exclusion ⟨"utf-8", 0, true, true, false⟩).1.mpr (by decide),
   (post_validate_mutual_exclusion ⟨"utf-8", 0, false, true, false⟩).2 rfl⟩

/-- C9: the hex armor on the multipart store is a round trip: hex-encoding
every part payload for saving and hex-decoding on load returns every part
byte for byte. -/
theorem hex_armor_roundtrip (buf : MultiBuffer)
    (hvalid : ∀ e ∈ buf, ∀ b ∈ e.2.part_message, b < 256) :
    unhex_from_redis (hex_for_redis buf) = some buf := by
  induction buf with
  | nil => rfl
  | cons e rest ih =>
    obtain ⟨i, part⟩ := e
    have hp : ∀ b ∈ part.part_message, b < 256 := by
      intro b hb
      exact hvalid (i, part) (by simp) b hb
    have ih2 := ih (fun x hx => hvalid x (by simp [hx]))
    simp only [hex_for_redis, List.map_cons] at ih2 ⊢
    simp [unhex_from_redis, hexDecodeStr_hexEncodeStr _ hp, ih2]

/-- C9 witness: a binary payload with a zero byte, a high byte and a
control byte survives the store round trip. -/
theorem hex_armor_roundtrip_witness :
    unhex_from_redis (hex_for_redis
      [(1, ⟨[0, 255, 16], "from", "to"⟩)]) =
      some [(1, ⟨[0, 255, 16], "from", "to"⟩)] :=
  hex_armor_roundtrip [(1, ⟨[0, 255, 16], "from", "to"⟩)] (by decide)

end Vumi
